import Mathlib

set_option maxHeartbeats 1000000

namespace SmtpServer

/-!
Shallow embedding of the bulk send, template substitution and
per-recipient result aggregation pipeline of the email service module
(src/unnamed/part_005).  The configuration, template and logging
collaborators live in a config module that is not part of the staged
sources; they are modelled from the specification (sections 4 and 6)
as an explicit environment of pure values.  Wall-clock time, console
output, the filesystem image handling and the module-level rate-limit
state (which no staged function reads) are outside the model.
-/

/-- Greedy match of the regex tail after an opening pair of curly
characters: one-or-more characters other than a closing curly, then two
closing curlies; returns the captured key and the remainder of the
input on success, mirroring the pattern used by processTemplate.  The
character class admits any character except a closing curly, so the
greedy run always stops at the first closing curly and backtracking can
never produce a different match. -/
def scanKey (cs : List Char) : Option (List Char × List Char) :=
  let key := cs.takeWhile (fun c => c ≠ '}')
  let rest := cs.dropWhile (fun c => c ≠ '}')
  if key.isEmpty then none
  else
    match rest with
    | '}' :: '}' :: rem => some (key, rem)
    | _ => none

/-- One scanning step of the global regex replace: at the current
position the engine either matches a complete token (opening pair, key,
closing pair), or emits one literal character and advances by one.
When an opening pair fails to complete a token only one character is
consumed, so the second opening character is re-examined at the next
position, exactly as a global regex scan does. -/
inductive StepR where
  | done
  | lit (c : Char) (rest : List Char)
  | tok (key : List Char) (rest : List Char)
deriving Repr, DecidableEq

/-- Single scan step on the remaining input. -/
def step : List Char → StepR
  | [] => .done
  | '{' :: '{' :: rest =>
      match scanKey rest with
      | some (key, rem) => .tok key rem
      | none => .lit '{' ('{' :: rest)
  | c :: rest => .lit c rest

/-- Whitespace trim of the captured key, on the character list: the
key is stripped of leading and trailing whitespace before the lookup,
as the source does with the string trim method. -/
def trimChars (cs : List Char) : List Char :=
  ((cs.dropWhile Char.isWhitespace).reverse.dropWhile Char.isWhitespace).reverse

/-- The source's processTemplate on an explicit character list, with
structural fuel; fuel of at least the input length plus one always
suffices because every step consumes at least one character. -/
def processTemplateAux (data : String → Option String) : Nat → List Char → List Char
  | 0, cs => cs
  | fuel + 1, cs =>
      match step cs with
      | .done => []
      | .lit c rest => c :: processTemplateAux data fuel rest
      | .tok key rem =>
          match data (String.mk (trimChars key)) with
          | some v => v.data ++ processTemplateAux data fuel rem
          | none => '{' :: '{' :: (key ++ '}' :: '}' :: processTemplateAux data fuel rem)

/-- Replace template variables with actual values: the source's
processTemplate.  Substitution data is modelled as a partial map from
keys to the string form of the stored value; a key bound to a defined
but falsy value (such as the empty string) is present in the map, an
undefined key is absent, so the defined-ness test of the source is the
map's domain. -/
def processTemplate (template : String) (data : String → Option String) : String :=
  String.mk (processTemplateAux data (template.data.length + 1) template.data)

/-- Empty substitution data: the source's defaulted empty record. -/
def noData : String → Option String := fun _ => none

/-- Modelled from the spec: a pattern splits into literal characters
and tokens, a token carrying the raw key text found between the curly
pairs (section 4.1). -/
inductive Segment where
  | ch (c : Char)
  | tok (raw : List Char)
deriving Repr, DecidableEq

/-- Tokenization of a pattern, sharing the scan step with the code side
so that both sides agree on what a token is. -/
def tokenizeAux : Nat → List Char → List Segment
  | 0, cs => cs.map .ch
  | fuel + 1, cs =>
      match step cs with
      | .done => []
      | .lit c rest => .ch c :: tokenizeAux fuel rest
      | .tok key rem => .tok key :: tokenizeAux fuel rem

/-- Tokenize a whole pattern. -/
def tokenize (pattern : String) : List Segment :=
  tokenizeAux (pattern.data.length + 1) pattern.data

/-- Modelled from the spec: a token whose trimmed key is defined in the
data is replaced by the value's string form; a token whose key is
absent is left as its original literal text, curly characters included;
a literal character stands for itself.  A substituted value is inserted
as finished text and never re-tokenized (section 4.1). -/
def renderSegment (data : String → Option String) : Segment → List Char
  | .ch c => [c]
  | .tok raw =>
      match data (String.mk (trimChars raw)) with
      | some v => v.data
      | none => '{' :: '{' :: (raw ++ ['}', '}'])

/-- Modelled from the spec: render a pattern by mapping every segment
independently and concatenating the results (section 4.1). -/
def renderSpec (pattern : String) (data : String → Option String) : String :=
  String.mk (((tokenize pattern).map (renderSegment data)).flatten)

theorem flatten_map_single (cs : List Char) :
    (cs.map (fun c => [c])).flatten = cs := by
  induction cs with
  | nil => rfl
  | cons c cs ih => simp [ih]

theorem processTemplateAux_eq (data : String → Option String) :
    ∀ (fuel : Nat) (cs : List Char),
    processTemplateAux data fuel cs
      = ((tokenizeAux fuel cs).map (renderSegment data)).flatten := by
  intro fuel
  induction fuel with
  | zero =>
      intro cs
      simp only [processTemplateAux, tokenizeAux, List.map_map]
      have : (renderSegment data) ∘ Segment.ch = fun c => [c] := by
        funext c; rfl
      rw [this, flatten_map_single]
  | succ fuel ih =>
      intro cs
      simp only [processTemplateAux, tokenizeAux]
      cases h : step cs with
      | done => simp
      | lit c rest => simp [renderSegment, ih rest]
      | tok key rem =>
          cases hd : data (String.mk (trimChars key)) with
          | none => simp [renderSegment, hd, ih rem]
          | some v => simp [renderSegment, hd, ih rem]

/-- C3: for every pattern and substitution mapping, processTemplate
replaces each token whose trimmed key is defined in the data (defined
but falsy values included) with the value's string form, leaves each
token whose key is absent unchanged as literal token text, and never
re-scans a substituted value: it agrees with the spec-side renderer
that maps each token of the pattern independently. -/
theorem processTemplate_eq_renderSpec (p : String) (d : String → Option String) :
    processTemplate p d = renderSpec p d := by
  unfold processTemplate renderSpec tokenize
  rw [processTemplateAux_eq]

/-- Sanity check: the worked example of the specification, with a key
absent from the data left as literal token text. -/
theorem processTemplate_spec_example :
    processTemplate "Hi \x7b\x7bname\x7d\x7d, from \x7b\x7borg\x7d\x7d"
      (fun k => if k = "name" then some "Ann" else none)
      = "Hi Ann, from \x7b\x7borg\x7d\x7d" := by
  decide

/-- Sanity check: a defined but falsy value is substituted, and
whitespace around the key is trimmed. -/
theorem processTemplate_falsy_example :
    processTemplate "a\x7b\x7b v \x7d\x7db" (fun k => if k = "v" then some "" else none)
      = "ab" := by
  decide

/-! Data model of the email service (part_005) and the spec-modelled
collaborators. -/

/-- Interface for email recipient (part_005 lines 8-11): address plus
optional display name.  A sender override has the same shape. -/
structure EmailRecipient where
  email : String
  name : Option String
deriving Repr, DecidableEq

/-- A single recipient or an array of recipients: the to field keeps
the singular or plural shape of the caller's input. -/
inductive RecipientField where
  | single (r : EmailRecipient)
  | many (rs : List EmailRecipient)
deriving Repr, DecidableEq

/-- Recipients of the field as a flat list, as the logging loops of the
source produce with their array test. -/
def RecipientField.toList : RecipientField → List EmailRecipient
  | .single r => [r]
  | .many rs => rs

/-- Interface for dynamic SMTP configuration (part_005 lines 60-66). -/
structure DynamicSmtpConfig where
  host : String
  port : Nat
  secure : Bool
  user : String
  pass : String
deriving Repr, DecidableEq

/-- Credential pair of a stored configuration. -/
structure SmtpAuth where
  user : String
  pass : String
deriving Repr, DecidableEq

/-- Modelled from the spec: a stored TransportConfig of the external
Configuration Store (spec section 3), with the field names the staged
code reads: an id, a nested credential pair, a default flag. -/
structure SmtpServerConfig where
  id : String
  name : String
  host : String
  port : Nat
  secure : Bool
  auth : SmtpAuth
  isDefault : Bool
deriving Repr, DecidableEq

/-- Modelled from the spec: a TemplateDefinition of the external
Template Store (spec section 3): id, subject pattern, body pattern,
default flag. -/
structure EmailTemplate where
  id : String
  name : String
  subject : String
  body : String
  isDefault : Bool
deriving Repr, DecidableEq

/-- An EmailLogEntry as the staged code constructs it: timestamp,
configuration id, optional template id, recipient address, subject,
success flag, message text.  Timestamps are outside the model and kept
empty. -/
structure EmailLogEntry where
  timestamp : String
  smtpConfig : String
  templateId : Option String
  recipient : String
  subject : String
  success : Bool
  message : String
deriving Repr, DecidableEq

/-- The normalized transport configuration built by createTransport
(part_005 lines 92-100): both stored and dynamic shapes collapse to
host, port, secure flag and a flat credential pair. -/
structure TransportSettings where
  host : String
  port : Nat
  secure : Bool
  user : String
  pass : String
deriving Repr, DecidableEq

/-- A transport address value: one string for a single recipient, an
array of strings for a list, preserving the shape of the input. -/
inductive StrOrList where
  | single (s : String)
  | many (ss : List String)
deriving Repr, DecidableEq

/-- The outbound message assembled by sendEmail (part_005 lines
282-291).  The source's sender and destination field names are
reserved words here, so they are named fromAddr and toField. -/
structure MailOptions where
  fromAddr : String
  toField : StrOrList
  subject : String
  html : String
  cc : Option StrOrList
  bcc : Option StrOrList
deriving Repr, DecidableEq

/-- Interface for email data (part_005 lines 14-32).  Substitution
data is modelled as a partial map to string forms; the images field is
outside the model (filesystem side effects, unused by every claim). -/
structure EmailData where
  toField : RecipientField
  subject : String
  body : String
  fromField : Option EmailRecipient
  cc : Option (List EmailRecipient)
  bcc : Option (List EmailRecipient)
  templateId : Option String
  templateData : Option (String → Option String)
  smtpConfig : Option DynamicSmtpConfig

/-- Interface for bulk email data (part_005 lines 35-50). -/
structure BulkEmailData where
  recipients : List EmailRecipient
  subject : String
  body : String
  fromField : Option EmailRecipient
  cc : Option (List EmailRecipient)
  bcc : Option (List EmailRecipient)
  templateId : Option String
  templateData : Option (String → Option String)
  batchSize : Option Nat
  delayBetweenBatches : Option Nat
  smtpConfig : Option DynamicSmtpConfig

/-- Observable events of one run: an email log append together with
the best-effort persistence outcome the environment assigns it, a
successful transport delivery, a console warning, the inter-batch
pause, and the start of a batch with its recipient addresses.  Events
mark the suspension points listed in spec section 5. -/
inductive Event where
  | log (entry : EmailLogEntry) (persisted : Bool)
  | delivered (messageId : String)
  | warn (message : String)
  | delay (ms : Nat)
  | batchStart (emails : List String)
deriving Repr, DecidableEq

/-- The events a run appends, in order. -/
abbrev Trace := List Event

/-- Effectful computation: the trace of events it appends, and either
a value or the exception it raises.  This is the single-threaded
cooperative model of spec section 5; batch concurrency is linearized
in input order, and no claim below depends on arrival order inside a
batch. -/
def M (α : Type) : Type := Trace × Except String α

/-- Pure value, no events. -/
def M.pure (a : α) : M α := ([], .ok a)

/-- Raise an exception. -/
def M.throw (e : String) : M α := ([], .error e)

/-- Append one event. -/
def M.emit (ev : Event) : M Unit := ([ev], .ok ())

/-- Sequencing: events of the first computation happen first; an
exception skips the continuation. -/
def M.bind (x : M α) (f : α → M β) : M β :=
  match x.2 with
  | .ok a => (x.1 ++ (f a).1, (f a).2)
  | .error e => (x.1, .error e)

/-- The try and catch statement: an exception from the body runs the
handler after the events the body already produced. -/
def M.tryCatch (x : M α) (h : String → M α) : M α :=
  match x.2 with
  | .ok a => (x.1, .ok a)
  | .error e => (x.1 ++ (h e).1, (h e).2)

/-- Await one collaborator read: a store value reaches the
continuation, a store failure propagates as an exception.  Store reads
produce no events. -/
def M.attempt (x : Except String α) (f : α → M β) : M β :=
  match x with
  | .ok a => f a
  | .error e => ([], .error e)

/-- Modelled from the spec: the external collaborators of spec section
6 as one read-only environment.  The four store reads are values of an
exception monad, so an unavailable store is expressible; the mail
transport maps resolved settings and a message to a message id or to a
delivery error; the logging append is best-effort and never raises (a
logging failure must not abort a send), its per-entry persistence
outcome given by logPersist. -/
structure Env where
  getSmtpConfigs : Except String (List SmtpServerConfig)
  getDefaultSmtpConfig : Except String (Option SmtpServerConfig)
  getEmailTemplates : Except String (List EmailTemplate)
  getDefaultEmailTemplate : Except String (Option EmailTemplate)
  sendMail : TransportSettings → MailOptions → Except String String
  logPersist : EmailLogEntry → Bool

/-- One transport delivery call: a successful delivery is a visible
event carrying the message id; a failed one raises. -/
def Env.sendMailM (env : Env) (ts : TransportSettings) (mo : MailOptions) : M String :=
  match env.sendMail ts mo with
  | .ok mid => ([.delivered mid], .ok mid)
  | .error e => ([], .error e)

/-- One logging append: the call is recorded as an event with its
best-effort persistence outcome and never raises. -/
def Env.logEmailActivityM (env : Env) (entry : EmailLogEntry) : M Unit :=
  ([.log entry (env.logPersist entry)], .ok ())

/-- Normalized settings from a stored configuration: the nested
credential branch of the source's shape test. -/
def SmtpServerConfig.settings (c : SmtpServerConfig) : TransportSettings :=
  { host := c.host, port := c.port, secure := c.secure
    user := c.auth.user, pass := c.auth.pass }

/-- Normalized settings from a dynamic configuration: the flat
credential branch of the source's shape test. -/
def DynamicSmtpConfig.settings (c : DynamicSmtpConfig) : TransportSettings :=
  { host := c.host, port := c.port, secure := c.secure
    user := c.user, pass := c.pass }

/-- The final else branch of the transport factory (part_005 lines
86-89): read the default configuration; when the store has none the
source goes on to read fields of an undefined value and raises a type
error. -/
def defaultTransportBranch (env : Env) : M TransportSettings :=
  M.attempt env.getDefaultSmtpConfig (fun dflt =>
    match dflt with
    | none => M.throw "TypeError: cannot read fields of an undefined configuration"
    | some c => M.pure c.settings)

/-- Create a nodemailer transport using SMTP config (part_005 lines
71-104).  Priority: dynamic config from the request, then stored
config by a truthy id (an unknown id raises), then the default config.
The configuration id test is a truthiness test, so a supplied empty id
is treated like an absent one and falls through to the default
branch. -/
def createTransport (env : Env) (smtpConfigId : Option String)
    (dynamicConfig : Option DynamicSmtpConfig) : M TransportSettings :=
  match dynamicConfig with
  | some dyn => M.pure dyn.settings
  | none =>
      match smtpConfigId with
      | some cfgId =>
          if cfgId = "" then defaultTransportBranch env
          else
            M.attempt env.getSmtpConfigs (fun configs =>
              match configs.find? (fun c => c.id == cfgId) with
              | none => M.throw ("SMTP configuration with ID " ++ cfgId ++ " not found")
              | some c => M.pure c.settings)
      | none => defaultTransportBranch env

/-- Format recipients for nodemailer (part_005 lines 159-164): a
truthy display name is wrapped in double quotes before the bracketed
address, otherwise the bare address is returned; the display name is
inserted verbatim, with no escaping or validation. -/
def formatRecipient (r : EmailRecipient) : String :=
  match r.name with
  | some n => if n == "" then r.email else "\"" ++ n ++ "\" <" ++ r.email ++ ">"
  | none => r.email

/-- Format recipients array for nodemailer (part_005 lines 169-174):
preserves the singular or plural shape of the input. -/
def formatRecipients : RecipientField → StrOrList
  | .many rs => .many (rs.map formatRecipient)
  | .single r => .single (formatRecipient r)

/-- C2 (amended): transport resolution precedence (part_005 lines
71-104): an inline dynamic configuration wins unconditionally,
whatever stored id accompanies it; otherwise a supplied non-empty
configId is looked up among the stored configurations, resolution
failing when no stored configuration has that id; otherwise the
default configuration is used — a supplied empty configId is falsy
and behaves exactly like an absent one — and resolution fails when
the store has no default. -/
theorem createTransport_precedence (env : Env) (dyn : DynamicSmtpConfig)
    (cfgId : String) (anyId : Option String) (hne : cfgId ≠ "") :
    (createTransport env anyId (some dyn)).2 = .ok dyn.settings
    ∧ (∀ configs c, env.getSmtpConfigs = .ok configs
        → configs.find? (fun c0 => c0.id == cfgId) = some c
        → (createTransport env (some cfgId) none).2 = .ok c.settings)
    ∧ (∀ configs, env.getSmtpConfigs = .ok configs
        → configs.find? (fun c0 => c0.id == cfgId) = none
        → (createTransport env (some cfgId) none).2
            = .error ("SMTP configuration with ID " ++ cfgId ++ " not found"))
    ∧ (∀ c, env.getDefaultSmtpConfig = .ok (some c)
        → (createTransport env none none).2 = .ok c.settings)
    ∧ (env.getDefaultSmtpConfig = .ok none
        → ∃ e, (createTransport env none none).2 = .error e)
    ∧ (createTransport env (some "") none).2 = (createTransport env none none).2 := by
  refine ⟨rfl, ?_, ?_, ?_, ?_, rfl⟩
  · intro configs c h1 h2
    simp [createTransport, hne, M.attempt, M.pure, h1, h2]
  · intro configs h1 h2
    simp [createTransport, hne, M.attempt, M.throw, h1, h2]
  · intro c h1
    simp [createTransport, defaultTransportBranch, M.attempt, M.pure, h1]
  · intro h1
    simp [createTransport, defaultTransportBranch, M.attempt, M.throw, h1]

/-- A stored configuration used by concrete witnesses. -/
def cfgA : SmtpServerConfig :=
  { id := "idA", name := "A", host := "smtp.a.example", port := 587
    secure := false, auth := { user := "ua", pass := "pa" }, isDefault := false }

/-- A second stored configuration, marked default, used by concrete
witnesses. -/
def cfgB : SmtpServerConfig :=
  { id := "idB", name := "B", host := "smtp.b.example", port := 465
    secure := true, auth := { user := "ub", pass := "pb" }, isDefault := true }

/-- A dynamic configuration used by concrete witnesses. -/
def dynW : DynamicSmtpConfig :=
  { host := "smtp.dyn.example", port := 2525, secure := false
    user := "ud", pass := "pd" }

/-- A concrete environment in which both stored configurations and a
default exist and delivery always succeeds. -/
def envW : Env :=
  { getSmtpConfigs := .ok [cfgA, cfgB]
    getDefaultSmtpConfig := .ok (some cfgB)
    getEmailTemplates := .ok []
    getDefaultEmailTemplate := .ok none
    sendMail := fun _ _ => .ok "MID1"
    logPersist := fun _ => true }

/-- The same store with no default configuration. -/
def envNoDefault : Env :=
  { envW with getDefaultSmtpConfig := .ok none }

/-- C2: counterexample to the claim as stated: a supplied empty
configuration id is falsy in the source's truthiness test, so with no
inline configuration the program falls back to the default
configuration instead of failing the lookup — resolution succeeds
with the default configuration's settings even though no stored
configuration has the empty id. -/
theorem createTransport_empty_id_counterexample :
    envW.getSmtpConfigs = .ok [cfgA, cfgB]
    ∧ (∀ c ∈ [cfgA, cfgB], c.id ≠ "")
    ∧ (createTransport envW (some "") none).2 = .ok cfgB.settings :=
  ⟨rfl, by decide, rfl⟩

/-- C2 witness: at the concrete store, the inline configuration beats
an accompanying stored id, the stored non-empty id is honoured without
an inline configuration, an unknown id fails, the default is used when
neither is supplied, resolution fails when no default exists, and a
supplied empty id behaves exactly like an absent one. -/
theorem createTransport_precedence_witness :
    (createTransport envW (some "idA") (some dynW)).2 = .ok dynW.settings
    ∧ (createTransport envW (some "idA") none).2 = .ok cfgA.settings
    ∧ (createTransport envW (some "nope") none).2
        = .error ("SMTP configuration with ID " ++ "nope" ++ " not found")
    ∧ (createTransport envW none none).2 = .ok cfgB.settings
    ∧ (∃ e, (createTransport envNoDefault none none).2 = .error e)
    ∧ (createTransport envW (some "") none).2 = (createTransport envW none none).2 :=
  ⟨(createTransport_precedence envW dynW "idA" (some "idA") (by decide)).1,
   (createTransport_precedence envW dynW "idA" (some "idA") (by decide)).2.1
     [cfgA, cfgB] cfgA rfl (by decide),
   (createTransport_precedence envW dynW "nope" none (by decide)).2.2.1
     [cfgA, cfgB] rfl (by decide),
   (createTransport_precedence envW dynW "idB" none (by decide)).2.2.2.1 cfgB rfl,
   (createTransport_precedence envNoDefault dynW "idB" none (by decide)).2.2.2.2.1 rfl,
   (createTransport_precedence envW dynW "idB" none (by decide)).2.2.2.2.2⟩

/-- C10: counterexample to the claim as stated: an empty display name
is present on the recipient record, but the source's truthiness test
treats it as absent and returns the bare address instead of the quoted
empty name the claim prescribes. -/
theorem formatRecipient_empty_name_counterexample :
    formatRecipient { email := "a@x.com", name := some "" } = "a@x.com"
      ∧ "a@x.com" ≠ "\"\" <a@x.com>" := by
  exact ⟨rfl, by decide⟩

/-- C10 (amended): for every recipient record with a non-empty display
name, formatRecipient returns exactly the quoted display name followed
by the bracketed address, embedding the name verbatim with no escaping
or validation; a recipient whose display name is missing or empty is
formatted as the bare address unchanged; the plural formatter maps the
singular one over an array and preserves the shape of its input. -/
theorem formatRecipient_spec (e n : String) (r : EmailRecipient)
    (rs : List EmailRecipient) (hn : n ≠ "") :
    formatRecipient { email := e, name := some n } = "\"" ++ n ++ "\" <" ++ e ++ ">"
      ∧ formatRecipient { email := e, name := none } = e
      ∧ formatRecipient { email := e, name := some "" } = e
      ∧ formatRecipients (.single r) = .single (formatRecipient r)
      ∧ formatRecipients (.many rs) = .many (rs.map formatRecipient) := by
  refine ⟨?_, rfl, rfl, rfl, rfl⟩
  simp [formatRecipient, hn]

/-- C10 witness: a display name holding a double quote and angle
brackets is embedded unchanged between the quotes. -/
theorem formatRecipient_spec_witness :
    formatRecipient { email := "a@x.com", name := some "Ann \" <evil>" }
        = "\"" ++ "Ann \" <evil>" ++ "\" <" ++ "a@x.com" ++ ">"
      ∧ formatRecipient { email := "a@x.com", name := none } = "a@x.com"
      ∧ formatRecipient { email := "a@x.com", name := some "" } = "a@x.com"
      ∧ formatRecipients (.single { email := "b@x.com", name := none })
          = .single (formatRecipient { email := "b@x.com", name := none })
      ∧ formatRecipients (.many [{ email := "b@x.com", name := none }])
          = .many ([{ email := "b@x.com", name := none }].map formatRecipient) :=
  formatRecipient_spec "a@x.com" "Ann \" <evil>" { email := "b@x.com", name := none }
    [{ email := "b@x.com", name := none }] (by decide)


/-! The single-send operation and the bulk orchestrator. -/

/-- The result shape of sendEmail (part_005 line 242): success flag
and optional message. -/
structure SendResult where
  success : Bool
  message : Option String
deriving Repr, DecidableEq

/-- Generate email content from template (part_005 lines 119-154): a
missing or empty template id keeps the provided subject and body; the
reserved id default selects the store's default template, any other id
is looked up among the stored templates; an unknown template warns and
falls back to the provided subject and body; a found template has its
subject and body patterns rendered with the substitution data (an
undefined record defaulting to the empty one). -/
def generateEmailContent (env : Env) (templateId : Option String)
    (templateData : Option (String → Option String))
    (subject body : String) : M (String × String) :=
  match templateId with
  | none => M.pure (subject, body)
  | some tid =>
      if tid = "" then M.pure (subject, body)
      else
        M.attempt env.getEmailTemplates (fun templates =>
          M.attempt (if tid = "default" then env.getDefaultEmailTemplate
                     else .ok (templates.find? (fun t => t.id == tid)))
            (fun template =>
              match template with
              | none =>
                  M.bind (M.emit (.warn ("Template with ID " ++ tid
                      ++ " not found. Using provided subject and body.")))
                    (fun _ => M.pure (subject, body))
              | some t =>
                  M.pure (processTemplate t.subject (templateData.getD noData),
                          processTemplate t.body (templateData.getD noData))))

/-- The configuration sendEmail re-resolves for its own use (part_005
lines 247-263): the request's dynamic configuration, else the stored
configuration with the supplied id, else the default; an unknown id or
a missing default yields none, which sendEmail turns into an early
failure result. -/
inductive ResolvedCfg where
  | stored (c : SmtpServerConfig)
  | dynamic (c : DynamicSmtpConfig)
deriving Repr, DecidableEq

/-- The final else branch of the re-resolution (part_005 lines
257-259): read the default configuration; an absent default becomes
none, which sendEmail turns into an early failure result. -/
def resolveDefaultBranch (env : Env) : M (Option ResolvedCfg) :=
  M.attempt env.getDefaultSmtpConfig (fun dflt =>
    M.pure (dflt.map .stored))

/-- Re-resolution of the configuration inside sendEmail.  As in
createTransport, the configuration id test is a truthiness test, so a
supplied empty id falls through to the default branch. -/
def resolveSendConfig (env : Env) (data : EmailData)
    (smtpConfigId : Option String) : M (Option ResolvedCfg) :=
  match data.smtpConfig with
  | some dyn => M.pure (some (.dynamic dyn))
  | none =>
      match smtpConfigId with
      | some cfgId =>
          if cfgId = "" then resolveDefaultBranch env
          else
            M.attempt env.getSmtpConfigs (fun configs =>
              M.pure ((configs.find? (fun c => c.id == cfgId)).map .stored))
      | none => resolveDefaultBranch env

/-- The sender account of the resolved configuration: the source's
default from address (part_005 line 279). -/
def ResolvedCfg.defaultFrom : ResolvedCfg → String
  | .stored c => c.auth.user
  | .dynamic c => c.user

/-- The configuration id recorded in a success log entry (part_005
line 299): the stored id, or the word dynamic for an inline
configuration. -/
def ResolvedCfg.logId : ResolvedCfg → String
  | .stored c => c.id
  | .dynamic _ => "dynamic"

/-- The sender header (part_005 lines 283-285): an explicit sender
with a truthy name is quoted like a recipient, one without a truthy
name is the bare address, and no explicit sender defaults to the
authenticated account. -/
def fromHeader (sender : Option EmailRecipient) (defaultFrom : String) : String :=
  match sender with
  | some f =>
      match f.name with
      | some n => if n == "" then f.email else "\"" ++ n ++ "\" <" ++ f.email ++ ">"
      | none => f.email
  | none => defaultFrom

/-- The outbound message (part_005 lines 282-291). -/
def buildMailOptions (data : EmailData) (subject body defaultFrom : String) : MailOptions :=
  { fromAddr := fromHeader data.fromField defaultFrom
    toField := formatRecipients data.toField
    subject := subject
    html := body
    cc := data.cc.map (fun rs => formatRecipients (.many rs))
    bcc := data.bcc.map (fun rs => formatRecipients (.many rs)) }

/-- Append one success log entry per recipient (part_005 lines
297-310): the entry records the resolved configuration id, the
request's template id, the recipient address, the rendered subject and
the transport message id. -/
def successEntry (data : EmailData) (cfg : ResolvedCfg)
    (subject mid : String) (r : EmailRecipient) : EmailLogEntry :=
  { timestamp := ""
    smtpConfig := cfg.logId
    templateId := data.templateId
    recipient := r.email
    subject := subject
    success := true
    message := "Message sent: " ++ mid }

/-- The success logging loop itself. -/
def logSuccessEntries (env : Env) (data : EmailData) (cfg : ResolvedCfg)
    (subject mid : String) : List EmailRecipient → M Unit
  | [] => M.pure ()
  | r :: rs =>
      M.bind (env.logEmailActivityM (successEntry data cfg subject mid r))
        (fun _ => logSuccessEntries env data cfg subject mid rs)

/-- Append one failure log entry per recipient (part_005 lines
317-331): the entry records the supplied configuration id (the word
unknown when none was supplied or it was empty), the request's
template id, the recipient address, the request's raw subject and the
error text. -/
def failureEntry (data : EmailData) (smtpConfigId : Option String)
    (err : String) (r : EmailRecipient) : EmailLogEntry :=
  { timestamp := ""
    smtpConfig := match smtpConfigId with
                  | some s => if s == "" then "unknown" else s
                  | none => "unknown"
    templateId := data.templateId
    recipient := r.email
    subject := data.subject
    success := false
    message := err }

/-- The failure logging loop itself. -/
def logFailureEntries (env : Env) (data : EmailData) (smtpConfigId : Option String)
    (err : String) : List EmailRecipient → M Unit
  | [] => M.pure ()
  | r :: rs =>
      M.bind (env.logEmailActivityM (failureEntry data smtpConfigId err r))
        (fun _ => logFailureEntries env data smtpConfigId err rs)

/-- The body of sendEmail before its catch (part_005 lines 243-312):
create the transport, re-resolve the configuration, render the
content, deliver, then append one success log entry per recipient. -/
def sendEmailBody (env : Env) (data : EmailData) (smtpConfigId : Option String) :
    M SendResult :=
  M.bind (createTransport env smtpConfigId data.smtpConfig) (fun transport =>
  M.bind (resolveSendConfig env data smtpConfigId) (fun ocfg =>
  match ocfg with
  | none => M.pure { success := false, message := some "SMTP configuration not found" }
  | some cfg =>
      M.bind (generateEmailContent env data.templateId data.templateData
                data.subject data.body) (fun sb =>
      M.bind (env.sendMailM transport (buildMailOptions data sb.1 sb.2 cfg.defaultFrom))
        (fun mid =>
      M.bind (logSuccessEntries env data cfg sb.1 mid data.toField.toList)
        (fun _ =>
      M.pure { success := true, message := some ("Message sent: " ++ mid) })))))

/-- Send an email (part_005 lines 242-338): the body runs under a
catch that appends one failure log entry per recipient and converts
the exception into a failure result. -/
def sendEmail (env : Env) (data : EmailData) (smtpConfigId : Option String) :
    M SendResult :=
  M.tryCatch (sendEmailBody env data smtpConfigId)
    (fun err =>
      M.bind (logFailureEntries env data smtpConfigId err data.toField.toList)
        (fun _ => M.pure { success := false, message := some err }))

/-- A failures list entry of the bulk result (part_005 line 362). -/
structure BulkFailure where
  email : String
  error : String
deriving Repr, DecidableEq

/-- The result shape of sendBulkEmails (part_005 lines 343-349); an
undefined failures field is modelled as the empty list, which is what
the source's conditional produces whenever the list is empty. -/
structure BulkResult where
  success : Bool
  totalSent : Nat
  totalFailed : Nat
  failures : List BulkFailure
  message : Option String
deriving Repr, DecidableEq

/-- Per-recipient email data constructed by the orchestrator (part_005
lines 373-387): the recipient's address and display name are injected
into the substitution data under the reserved keys email and name, the
display name defaulting to the empty string, later keys overriding the
inherited record. -/
def bulkEmailDataFor (data : BulkEmailData) (r : EmailRecipient) : EmailData :=
  { toField := .single r
    subject := data.subject
    body := data.body
    fromField := data.fromField
    cc := data.cc
    bcc := data.bcc
    templateId := data.templateId
    templateData := some (fun k =>
      if k = "email" then some r.email
      else if k = "name" then some (match r.name with
                                    | some n => n
                                    | none => "")
      else (data.templateData.getD noData) k)
    smtpConfig := data.smtpConfig }

/-- One recipient inside a batch (part_005 lines 370-405): the single
send runs under its own catch; a success bumps the sent tally, a
failure result or an exception appends one failures entry with the
recipient address and the error text (a falsy message becoming the
unknown error text). -/
def processRecipient (env : Env) (data : BulkEmailData) (smtpConfigId : Option String)
    (acc : Nat × List BulkFailure) (r : EmailRecipient) : M (Nat × List BulkFailure) :=
  M.tryCatch
    (M.bind (sendEmail env (bulkEmailDataFor data r) smtpConfigId) (fun result =>
      if result.success then M.pure (acc.1 + 1, acc.2)
      else
        M.pure (acc.1,
          acc.2 ++ [{ email := r.email
                      error := match result.message with
                               | some m => if m == "" then "Unknown error" else m
                               | none => "Unknown error" }])))
    (fun e => M.pure (acc.1, acc.2 ++ [{ email := r.email, error := e }]))

/-- A batch: every recipient's single send, awaited together before
the orchestrator proceeds; completion is linearized in input order
(spec section 5), which no claim about counts depends on. -/
def processBatch (env : Env) (data : BulkEmailData) (smtpConfigId : Option String) :
    List EmailRecipient → (Nat × List BulkFailure) → M (Nat × List BulkFailure)
  | [], acc => M.pure acc
  | r :: rs, acc =>
      M.bind (processRecipient env data smtpConfigId acc r)
        (fun acc1 => processBatch env data smtpConfigId rs acc1)

/-- The batching loop (part_005 lines 366-413) with structural fuel;
fuel of at least the recipient count plus one always suffices for a
positive batch size, because every pass consumes a full batch.  The
head plus take and drop of one less mirror the source's slice from the
running index for a positive batch size; the source's loop does not
terminate at batch size zero, a case every theorem below excludes by
hypothesis.  A batch start is recorded as an event, and a pause event
of the configured delay occurs exactly when recipients remain after a
batch. -/
def bulkLoop (env : Env) (data : BulkEmailData) (smtpConfigId : Option String)
    (batchSize delayMs : Nat) :
    Nat → List EmailRecipient → (Nat × List BulkFailure) → M (Nat × List BulkFailure)
  | 0, _, acc => M.pure acc
  | _ + 1, [], acc => M.pure acc
  | fuel + 1, r :: rest, acc =>
      M.bind (M.emit (.batchStart ((r :: rest.take (batchSize - 1)).map
          (fun x => x.email)))) (fun _ =>
      M.bind (processBatch env data smtpConfigId (r :: rest.take (batchSize - 1)) acc)
        (fun acc1 =>
          match rest.drop (batchSize - 1) with
          | [] => M.pure acc1
          | r2 :: rest2 =>
              M.bind (M.emit (.delay delayMs)) (fun _ =>
                bulkLoop env data smtpConfigId batchSize delayMs fuel (r2 :: rest2) acc1)))

/-- Send emails in bulk (part_005 lines 343-431): an empty recipient
list fails fast; otherwise the recipients are processed in contiguous
batches of batchSize (default ten) with a pause of delayBetweenBatches
milliseconds (default one thousand) between batches; the overall
success flag records whether at least one send succeeded, totalFailed
is the length of the failures list, and the message states the sent
and attempted counts.  The outer catch mirrors the source; no
computation of the model's body raises, so it is never taken. -/
def sendBulkEmails (env : Env) (data : BulkEmailData) (smtpConfigId : Option String) :
    M BulkResult :=
  M.tryCatch
    (if data.recipients.isEmpty then
      M.pure { success := false, totalSent := 0, totalFailed := 0
               failures := [], message := some "No recipients provided" }
    else
      M.bind (bulkLoop env data smtpConfigId (data.batchSize.getD 10)
                (data.delayBetweenBatches.getD 1000)
                (data.recipients.length + 1) data.recipients (0, []))
        (fun acc =>
          M.pure { success := decide (0 < acc.1)
                   totalSent := acc.1
                   totalFailed := acc.2.length
                   failures := acc.2
                   message := some ("Successfully sent " ++ toString acc.1 ++ " out of "
                     ++ toString data.recipients.length ++ " emails") }))
    (fun e =>
      M.pure { success := false, totalSent := 0, totalFailed := data.recipients.length
               failures := [], message := some e })

/-- Log entries of a trace, in order of appending. -/
def logEntries : Trace → List EmailLogEntry
  | [] => []
  | .log e _ :: tr => e :: logEntries tr
  | _ :: tr => logEntries tr

/-- A batch or a pause, for the orchestration skeleton of a trace. -/
inductive BatchItem where
  | batch (emails : List String)
  | pause (ms : Nat)
deriving Repr, DecidableEq

/-- The batch and pause skeleton of a trace: batch starts keep their
recipient addresses, pauses keep their duration, every other event is
dropped. -/
def batchSkeleton : Trace → List BatchItem
  | [] => []
  | .batchStart es :: tr => .batch es :: batchSkeleton tr
  | .delay ms :: tr => .pause ms :: batchSkeleton tr
  | _ :: tr => batchSkeleton tr

/-! Rewrite lemmas for the effect monad and the trace observers. -/

theorem M.pure_def (a : α) : (M.pure a : M α) = ([], .ok a) := rfl

theorem M.bind_of_ok {x : M α} {a : α} (f : α → M β) (h : x.2 = .ok a) :
    M.bind x f = (x.1 ++ (f a).1, (f a).2) := by
  unfold M.bind
  rw [h]

theorem M.bind_of_error {x : M α} {e : String} (f : α → M β) (h : x.2 = .error e) :
    M.bind x f = (x.1, .error e) := by
  unfold M.bind
  rw [h]

theorem M.bind_mk (tr : Trace) (a : α) (f : α → M β) :
    M.bind (tr, Except.ok a) f = (tr ++ (f a).1, (f a).2) := rfl

theorem M.tryCatch_of_ok {x : M α} {a : α} (h : String → M α) (hx : x.2 = .ok a) :
    M.tryCatch x h = (x.1, .ok a) := by
  unfold M.tryCatch
  rw [hx]

theorem M.tryCatch_of_error {x : M α} {e : String} (h : String → M α)
    (hx : x.2 = .error e) :
    M.tryCatch x h = (x.1 ++ (h e).1, (h e).2) := by
  unfold M.tryCatch
  rw [hx]

theorem logEntries_append (a b : Trace) :
    logEntries (a ++ b) = logEntries a ++ logEntries b := by
  induction a with
  | nil => rfl
  | cons ev tr ih => cases ev <;> simp [logEntries, ih]

theorem batchSkeleton_append (a b : Trace) :
    batchSkeleton (a ++ b) = batchSkeleton a ++ batchSkeleton b := by
  induction a with
  | nil => rfl
  | cons ev tr ih => cases ev <;> simp [batchSkeleton, ih]

theorem logFailureEntries_cons (env : Env) (data : EmailData) (i : Option String)
    (err : String) (r : EmailRecipient) (rs : List EmailRecipient) :
    logFailureEntries env data i err (r :: rs)
      = (Event.log (failureEntry data i err r)
            (env.logPersist (failureEntry data i err r))
          :: (logFailureEntries env data i err rs).1,
         (logFailureEntries env data i err rs).2) := rfl

/-- Shape of the failure logging loop: it never raises, appends one
log event per recipient carrying the failure entry for that recipient,
and contributes no batch items and no delivery events. -/
theorem logFailureEntries_shape (env : Env) (data : EmailData)
    (i : Option String) (err : String) : ∀ rs : List EmailRecipient,
    (logFailureEntries env data i err rs).2 = .ok ()
    ∧ logEntries (logFailureEntries env data i err rs).1
        = rs.map (failureEntry data i err)
    ∧ batchSkeleton (logFailureEntries env data i err rs).1 = []
    ∧ ∀ mid, Event.delivered mid ∉ (logFailureEntries env data i err rs).1 := by
  intro rs
  induction rs with
  | nil =>
      refine ⟨rfl, rfl, rfl, ?_⟩
      intro mid h
      simp [logFailureEntries, M.pure] at h
  | cons r rs ih =>
      obtain ⟨ih1, ih2, ih3, ih4⟩ := ih
      rw [logFailureEntries_cons]
      refine ⟨ih1, ?_, ?_, ?_⟩
      · simp [logEntries, ih2]
      · simp [batchSkeleton, ih3]
      · intro mid h
        simp only [List.mem_cons] at h
        rcases h with h | h
        · exact Event.noConfusion h
        · exact ih4 mid h

theorem logSuccessEntries_cons (env : Env) (data : EmailData) (cfg : ResolvedCfg)
    (subject mid0 : String) (r : EmailRecipient) (rs : List EmailRecipient) :
    logSuccessEntries env data cfg subject mid0 (r :: rs)
      = (Event.log (successEntry data cfg subject mid0 r)
            (env.logPersist (successEntry data cfg subject mid0 r))
          :: (logSuccessEntries env data cfg subject mid0 rs).1,
         (logSuccessEntries env data cfg subject mid0 rs).2) := rfl

/-- Shape of the success logging loop: it never raises, appends one
log event per recipient carrying the success entry for that recipient,
and contributes no batch items and no delivery events. -/
theorem logSuccessEntries_shape (env : Env) (data : EmailData) (cfg : ResolvedCfg)
    (subject mid0 : String) : ∀ rs : List EmailRecipient,
    (logSuccessEntries env data cfg subject mid0 rs).2 = .ok ()
    ∧ logEntries (logSuccessEntries env data cfg subject mid0 rs).1
        = rs.map (successEntry data cfg subject mid0)
    ∧ batchSkeleton (logSuccessEntries env data cfg subject mid0 rs).1 = []
    ∧ ∀ mid, Event.delivered mid ∉ (logSuccessEntries env data cfg subject mid0 rs).1 := by
  intro rs
  induction rs with
  | nil =>
      refine ⟨rfl, rfl, rfl, ?_⟩
      intro mid h
      simp [logSuccessEntries, M.pure] at h
  | cons r rs ih =>
      obtain ⟨ih1, ih2, ih3, ih4⟩ := ih
      rw [logSuccessEntries_cons]
      refine ⟨ih1, ?_, ?_, ?_⟩
      · simp [logEntries, ih2]
      · simp [batchSkeleton, ih3]
      · intro mid h
        simp only [List.mem_cons] at h
        rcases h with h | h
        · exact Event.noConfusion h
        · exact ih4 mid h

/-- The default branch of the transport factory emits no events. -/
theorem defaultTransportBranch_fst (env : Env) :
    (defaultTransportBranch env).1 = [] := by
  unfold defaultTransportBranch
  rcases hc : env.getDefaultSmtpConfig with e | dflt
  · simp [M.attempt, hc]
  · simp only [M.attempt, hc]
    cases dflt <;> simp [M.throw, M.pure]

/-- The transport factory emits no events. -/
theorem createTransport_fst (env : Env) (i : Option String)
    (d : Option DynamicSmtpConfig) :
    (createTransport env i d).1 = [] := by
  unfold createTransport
  cases d with
  | some dyn => rfl
  | none =>
      cases i with
      | some cfgId =>
          dsimp only
          by_cases hid : cfgId = ""
          · rw [if_pos hid]
            exact defaultTransportBranch_fst env
          · rw [if_neg hid]
            rcases hc : env.getSmtpConfigs with e | configs
            · simp [M.attempt, hc]
            · simp only [M.attempt, hc]
              cases hf : configs.find? (fun c => c.id == cfgId) <;>
                simp [M.throw, M.pure]
      | none => exact defaultTransportBranch_fst env

/-- The default branch of the re-resolution emits no events. -/
theorem resolveDefaultBranch_fst (env : Env) :
    (resolveDefaultBranch env).1 = [] := by
  unfold resolveDefaultBranch
  rcases hc : env.getDefaultSmtpConfig with e | dflt <;>
    simp [M.attempt, hc, M.pure]

/-- The re-resolution emits no events. -/
theorem resolveSendConfig_fst (env : Env) (data : EmailData) (i : Option String) :
    (resolveSendConfig env data i).1 = [] := by
  unfold resolveSendConfig
  cases data.smtpConfig with
  | some dyn => rfl
  | none =>
      cases i with
      | some cfgId =>
          dsimp only
          by_cases hid : cfgId = ""
          · rw [if_pos hid]
            exact resolveDefaultBranch_fst env
          · rw [if_neg hid]
            rcases hc : env.getSmtpConfigs with e | configs <;>
              simp [M.attempt, hc, M.pure]
      | none => exact resolveDefaultBranch_fst env

/-- Store consistency of the shared default branch: a resolved default
configuration means the re-resolution's default branch cannot come up
empty. -/
theorem resolveDefaultBranch_not_none (env : Env) (ts : TransportSettings)
    (h : (defaultTransportBranch env).2 = .ok ts) :
    (resolveDefaultBranch env).2 ≠ .ok none := by
  unfold defaultTransportBranch at h
  unfold resolveDefaultBranch
  rcases hc : env.getDefaultSmtpConfig with e | dflt
  · rw [hc] at h
    simp [M.attempt] at h
  · rw [hc] at h
    simp only [M.attempt] at h ⊢
    cases hdf : dflt with
    | none => simp [hdf, M.throw] at h
    | some c => simp [M.pure]

/-- Store consistency: when the transport factory resolved a
configuration, the re-resolution inside sendEmail reads the same store
values and cannot come up empty, so the early configuration-not-found
return of sendEmail is unreachable. -/
theorem resolveSendConfig_not_none (env : Env) (data : EmailData)
    (cfgId : Option String) (ts : TransportSettings)
    (h : (createTransport env cfgId data.smtpConfig).2 = .ok ts) :
    (resolveSendConfig env data cfgId).2 ≠ .ok none := by
  unfold createTransport at h
  unfold resolveSendConfig
  cases hd : data.smtpConfig with
  | some dyn => simp [M.pure]
  | none =>
      rw [hd] at h
      cases cfgId with
      | some i =>
          dsimp only at h ⊢
          by_cases hid : i = ""
          · rw [if_pos hid] at h ⊢
            exact resolveDefaultBranch_not_none env ts h
          · rw [if_neg hid] at h ⊢
            rcases hc : env.getSmtpConfigs with e | configs
            · rw [hc] at h
              simp [M.attempt] at h
            · rw [hc] at h
              simp only [M.attempt] at h ⊢
              cases hf : configs.find? (fun c => c.id == i) with
              | none => simp [hf, M.throw] at h
              | some c => simp [M.pure]
      | none => exact resolveDefaultBranch_not_none env ts h

/-- Content generation only ever emits warnings. -/
theorem generateEmailContent_events (env : Env) (tid : Option String)
    (td : Option (String → Option String)) (s b : String) :
    ∀ ev ∈ (generateEmailContent env tid td s b).1, ∃ m, ev = Event.warn m := by
  intro ev hev
  cases tid with
  | none => simp [generateEmailContent, M.pure] at hev
  | some t =>
      simp only [generateEmailContent] at hev
      by_cases ht : t = ""
      · rw [if_pos ht] at hev
        simp [M.pure] at hev
      · rw [if_neg ht] at hev
        rcases hc : env.getEmailTemplates with e | templates
        · rw [hc] at hev
          simp [M.attempt] at hev
        · rw [hc] at hev
          simp only [M.attempt] at hev
          rcases hsel : (if t = "default" then env.getDefaultEmailTemplate
              else .ok (templates.find? (fun x => x.id == t))) with e | otpl
          · rw [hsel] at hev
            simp at hev
          · rw [hsel] at hev
            simp only at hev
            cases otpl with
            | none =>
                simp only [M.bind, M.emit, M.pure] at hev
                simp at hev
                exact ⟨_, hev⟩
            | some tpl => simp [M.pure] at hev

/-- Traces of warnings contribute no log entries. -/
theorem logEntries_of_warns (tr : Trace)
    (h : ∀ ev ∈ tr, ∃ m, ev = Event.warn m) : logEntries tr = [] := by
  induction tr with
  | nil => rfl
  | cons ev tr ih =>
      obtain ⟨m, hm⟩ := h ev (by simp)
      subst hm
      exact ih (fun e he => h e (by simp [he]))

/-- Traces of warnings contribute no batch items. -/
theorem batchSkeleton_of_warns (tr : Trace)
    (h : ∀ ev ∈ tr, ∃ m, ev = Event.warn m) : batchSkeleton tr = [] := by
  induction tr with
  | nil => rfl
  | cons ev tr ih =>
      obtain ⟨m, hm⟩ := h ev (by simp)
      subst hm
      exact ih (fun e he => h e (by simp [he]))

/-- Traces of warnings contain no delivery events. -/
theorem delivered_not_mem_of_warns (tr : Trace) (mid : String)
    (h : ∀ ev ∈ tr, ∃ m, ev = Event.warn m) : Event.delivered mid ∉ tr := by
  intro hmem
  obtain ⟨m, hm⟩ := h _ hmem
  exact Event.noConfusion hm

/-! Case analysis of the single-send operation. -/

theorem sendMailM_of_error (env : Env) (ts : TransportSettings) (mo : MailOptions)
    (e : String) (h : env.sendMail ts mo = .error e) :
    Env.sendMailM env ts mo = ([], .error e) := by
  unfold Env.sendMailM
  rw [h]

theorem sendMailM_of_ok (env : Env) (ts : TransportSettings) (mo : MailOptions)
    (mid : String) (h : env.sendMail ts mo = .ok mid) :
    Env.sendMailM env ts mo = ([Event.delivered mid], .ok mid) := by
  unfold Env.sendMailM
  rw [h]

/-- Every run of the body of sendEmail either raises, having appended
no log entries, no batch items and no delivery events, or succeeds
with the success result, one success log entry per recipient carrying
the rendered subject, no batch items, and exactly the one delivery
event of its transport call.  The early configuration-not-found return
is unreachable because the body's transport resolution reads the same
store values. -/
theorem sendEmailBody_cases (env : Env) (data : EmailData) (cfgId : Option String) :
    (∃ e, (sendEmailBody env data cfgId).2 = .error e
        ∧ logEntries (sendEmailBody env data cfgId).1 = []
        ∧ batchSkeleton (sendEmailBody env data cfgId).1 = []
        ∧ (∀ mid, Event.delivered mid ∉ (sendEmailBody env data cfgId).1))
    ∨ (∃ mid sb cfg,
        (generateEmailContent env data.templateId data.templateData
            data.subject data.body).2 = .ok sb
        ∧ (sendEmailBody env data cfgId).2
            = .ok { success := true, message := some ("Message sent: " ++ mid) }
        ∧ logEntries (sendEmailBody env data cfgId).1
            = data.toField.toList.map (successEntry data cfg sb.1 mid)
        ∧ batchSkeleton (sendEmailBody env data cfgId).1 = []
        ∧ (∀ m2, Event.delivered m2 ∈ (sendEmailBody env data cfgId).1 → m2 = mid)
        ∧ Event.delivered mid ∈ (sendEmailBody env data cfgId).1) := by
  unfold sendEmailBody
  rcases hct : (createTransport env cfgId data.smtpConfig).2 with e | ts
  · left
    rw [M.bind_of_error _ hct, createTransport_fst]
    exact ⟨e, rfl, rfl, rfl, fun mid h => by simp at h⟩
  · rw [M.bind_of_ok _ hct, createTransport_fst]
    rcases hrsc : (resolveSendConfig env data cfgId).2 with e | ocfg
    · left
      rw [M.bind_of_error _ hrsc, resolveSendConfig_fst]
      exact ⟨e, rfl, rfl, rfl, fun mid h => by simp at h⟩
    · cases ocfg with
      | none => exact absurd hrsc (resolveSendConfig_not_none env data cfgId ts hct)
      | some cfg =>
          rw [M.bind_of_ok _ hrsc, resolveSendConfig_fst]
          dsimp only
          rcases hgc : (generateEmailContent env data.templateId data.templateData
              data.subject data.body).2 with e | sb
          · left
            rw [M.bind_of_error _ hgc]
            refine ⟨e, rfl, ?_, ?_, ?_⟩
            · simp only [List.nil_append]
              exact logEntries_of_warns _ (generateEmailContent_events env _ _ _ _)
            · simp only [List.nil_append]
              exact batchSkeleton_of_warns _ (generateEmailContent_events env _ _ _ _)
            · intro mid h
              simp only [List.nil_append] at h
              exact delivered_not_mem_of_warns _ mid
                (generateEmailContent_events env _ _ _ _) h
          · rw [M.bind_of_ok _ hgc]
            rcases hsm : env.sendMail ts
                (buildMailOptions data sb.1 sb.2 cfg.defaultFrom) with e | mid
            · left
              rw [M.bind_of_error _ (by rw [sendMailM_of_error env ts _ e hsm])]
              rw [sendMailM_of_error env ts _ e hsm]
              refine ⟨e, rfl, ?_, ?_, ?_⟩
              · simp only [List.nil_append, List.append_nil]
                exact logEntries_of_warns _ (generateEmailContent_events env _ _ _ _)
              · simp only [List.nil_append, List.append_nil]
                exact batchSkeleton_of_warns _ (generateEmailContent_events env _ _ _ _)
              · intro mid h
                simp only [List.nil_append, List.append_nil] at h
                exact delivered_not_mem_of_warns _ mid
                  (generateEmailContent_events env _ _ _ _) h
            · rw [M.bind_of_ok _ (by rw [sendMailM_of_ok env ts _ mid hsm])]
              rw [sendMailM_of_ok env ts _ mid hsm]
              rw [M.bind_of_ok _ ((logSuccessEntries_shape env data cfg sb.1 mid
                data.toField.toList).1)]
              right
              refine ⟨mid, sb, cfg, rfl, rfl, ?_, ?_, ?_, ?_⟩
              · simp only [List.nil_append, M.pure, List.append_nil]
                rw [logEntries_append, logEntries_append,
                  logEntries_of_warns _ (generateEmailContent_events env _ _ _ _)]
                simp [logEntries,
                  (logSuccessEntries_shape env data cfg sb.1 mid data.toField.toList).2.1]
              · simp only [List.nil_append, M.pure, List.append_nil]
                rw [batchSkeleton_append, batchSkeleton_append,
                  batchSkeleton_of_warns _ (generateEmailContent_events env _ _ _ _)]
                simp [batchSkeleton,
                  (logSuccessEntries_shape env data cfg sb.1 mid
                    data.toField.toList).2.2.1]
              · intro m2 hm2
                simp only [List.nil_append, M.pure, List.append_nil,
                  List.singleton_append, List.mem_append, List.mem_cons] at hm2
                rcases hm2 with h | h | h
                · exact absurd h (delivered_not_mem_of_warns _ m2
                    (generateEmailContent_events env _ _ _ _))
                · simpa using h
                · exact absurd h ((logSuccessEntries_shape env data cfg sb.1 mid
                    data.toField.toList).2.2.2 m2)
              · simp only [List.nil_append, M.pure, List.append_nil,
                  List.singleton_append]
                simp [List.mem_append, List.mem_cons]

/-- Master shape of sendEmail: the operation never raises; its result
always carries a message; its success flag is equivalent to a delivery
event in its trace; it appends exactly one log entry per recipient of
the request, each carrying that recipient's address; it emits no batch
items; a delivery event pins the whole result; success entries carry
the rendered subject, failure entries the raw request subject. -/
theorem sendEmail_master (env : Env) (data : EmailData) (cfgId : Option String) :
    ∃ r, (sendEmail env data cfgId).2 = .ok r
      ∧ r.message.isSome = true
      ∧ (r.success = true ↔ ∃ mid, Event.delivered mid ∈ (sendEmail env data cfgId).1)
      ∧ (logEntries (sendEmail env data cfgId).1).map (fun e => e.recipient)
          = data.toField.toList.map (fun x => x.email)
      ∧ batchSkeleton (sendEmail env data cfgId).1 = []
      ∧ (∀ mid, Event.delivered mid ∈ (sendEmail env data cfgId).1 →
          r = { success := true, message := some ("Message sent: " ++ mid) })
      ∧ (∀ el ∈ logEntries (sendEmail env data cfgId).1,
          (el.success = false → el.subject = data.subject)
          ∧ (el.success = true → ∃ sb,
              (generateEmailContent env data.templateId data.templateData
                  data.subject data.body).2 = .ok sb ∧ el.subject = sb.1)) := by
  unfold sendEmail
  rcases sendEmailBody_cases env data cfgId with
    ⟨e, h2, hlog, hskel, hdel⟩ | ⟨mid, sb, cfg, hgc, h2, hlog, hskel, huniq, hmem⟩
  · rw [M.tryCatch_of_error _ h2]
    dsimp only
    rw [M.bind_of_ok _ ((logFailureEntries_shape env data cfgId e data.toField.toList).1)]
    simp only [M.pure, List.append_nil]
    refine ⟨{ success := false, message := some e }, rfl, rfl, ?_, ?_, ?_, ?_, ?_⟩
    · refine ⟨fun hcontra => absurd hcontra (by simp), fun hex => ?_⟩
      obtain ⟨m2, hm⟩ := hex
      rcases List.mem_append.mp hm with h | h
      · exact absurd h (hdel m2)
      · exact absurd h
          ((logFailureEntries_shape env data cfgId e data.toField.toList).2.2.2 m2)
    · rw [logEntries_append, hlog,
        (logFailureEntries_shape env data cfgId e data.toField.toList).2.1]
      simp only [List.nil_append, List.map_map]
      rfl
    · rw [batchSkeleton_append, hskel,
        (logFailureEntries_shape env data cfgId e data.toField.toList).2.2.1]
      rfl
    · intro m2 hm2
      rcases List.mem_append.mp hm2 with h | h
      · exact absurd h (hdel m2)
      · exact absurd h
          ((logFailureEntries_shape env data cfgId e data.toField.toList).2.2.2 m2)
    · intro el hel
      rw [logEntries_append, hlog,
        (logFailureEntries_shape env data cfgId e data.toField.toList).2.1] at hel
      simp only [List.nil_append, List.mem_map] at hel
      obtain ⟨r0, hr0, rfl⟩ := hel
      exact ⟨fun _ => rfl, fun htrue => absurd htrue (by simp [failureEntry])⟩
  · rw [M.tryCatch_of_ok _ h2]
    refine ⟨{ success := true, message := some ("Message sent: " ++ mid) },
      rfl, rfl, ?_, ?_, hskel, ?_, ?_⟩
    · exact ⟨fun _ => ⟨mid, hmem⟩, fun _ => rfl⟩
    · rw [hlog]
      simp only [List.map_map]
      rfl
    · intro m2 hm2
      rw [huniq m2 hm2]
    · intro el hel
      rw [hlog] at hel
      simp only [List.mem_map] at hel
      obtain ⟨r0, hr0, rfl⟩ := hel
      exact ⟨fun hfalse => absurd hfalse (by simp [successEntry]),
        fun _ => ⟨sb, hgc, rfl⟩⟩

/-- C4: sendEmail never raises an exception to its caller: for every
request, configuration id and environment — template store
unavailable, transport resolution failure and delivery failure are all
expressible as environments — it terminates with an ordinary result;
the result always carries a message text, and it is a success exactly
when a delivery event occurred, so every failure path yields a failure
result holding the error text instead of throwing.  The logging append
is spec-modelled as best-effort and never raising. -/
theorem sendEmail_never_raises (env : Env) (data : EmailData) (cfgId : Option String) :
    ∃ r, (sendEmail env data cfgId).2 = .ok r
      ∧ r.message.isSome = true
      ∧ (r.success = true ↔ ∃ mid, Event.delivered mid ∈ (sendEmail env data cfgId).1) := by
  obtain ⟨r, h1, h2, h3, _⟩ := sendEmail_master env data cfgId
  exact ⟨r, h1, h2, h3⟩

/-- C5: a failure of the logging collaborator never aborts a send: on
every run whose transport delivery call succeeded — visible as the
delivery event in the trace — sendEmail returns the success result,
whatever persistence outcomes the logging collaborator assigns to the
appended entries.  The logging append is spec-modelled as best-effort
and never raising. -/
theorem sendEmail_logging_never_aborts (env : Env) (data : EmailData)
    (cfgId : Option String) (mid : String)
    (h : Event.delivered mid ∈ (sendEmail env data cfgId).1) :
    (sendEmail env data cfgId).2
      = .ok { success := true, message := some ("Message sent: " ++ mid) } := by
  obtain ⟨r, h1, _, _, _, _, hpin, _⟩ := sendEmail_master env data cfgId
  rw [h1, hpin mid h]

/-- A single-recipient request carrying an inline transport
configuration and no template, used by concrete witnesses. -/
def dataW : EmailData :=
  { toField := .single { email := "a@x.com", name := none }
    subject := "S"
    body := "B"
    fromField := none
    cc := none
    bcc := none
    templateId := none
    templateData := none
    smtpConfig := some dynW }

/-- The witness environment in which every logging append fails to
persist. -/
def envLogFail : Env :=
  { envW with logPersist := fun _ => false }

/-- C5 witness: at a concrete request whose delivery succeeds while
every logging append fails to persist, the result is still the
success result. -/
theorem sendEmail_logging_never_aborts_witness :
    (sendEmail envLogFail dataW none).2
      = .ok { success := true, message := some ("Message sent: " ++ "MID1") } :=
  sendEmail_logging_never_aborts envLogFail dataW none "MID1" (by decide)

/-- The stored template of the concrete template environments. -/
def tmplT : EmailTemplate :=
  { id := "t", name := "T", subject := "Rendered", body := "BodyT", isDefault := false }

/-- A concrete environment holding one stored template and a failing
transport. -/
def envC9 : Env :=
  { getSmtpConfigs := .ok []
    getDefaultSmtpConfig := .ok none
    getEmailTemplates := .ok [tmplT]
    getDefaultEmailTemplate := .ok none
    sendMail := fun _ _ => .error "boom"
    logPersist := fun _ => true }

/-- The same environment with a succeeding transport. -/
def envC9ok : Env :=
  { envC9 with sendMail := fun _ _ => .ok "MID9" }

/-- A single-recipient request that names the stored template and
carries a raw subject differing from the template's. -/
def dataC9 : EmailData :=
  { toField := .single { email := "a@x.com", name := none }
    subject := "Raw"
    body := "B"
    fromField := none
    cc := none
    bcc := none
    templateId := some "t"
    templateData := none
    smtpConfig := some dynW }

/-- C9: counterexample to the claim as stated: on a request whose
template renders the subject Rendered, a failed delivery writes a log
entry whose subject is the request's raw literal subject, not the
rendered one. -/
theorem sendEmail_failure_log_subject_counterexample :
    (logEntries (sendEmail envC9 dataC9 none).1).map (fun el => el.subject) = ["Raw"]
    ∧ (generateEmailContent envC9 dataC9.templateId dataC9.templateData
        dataC9.subject dataC9.body).2 = .ok ("Rendered", "BodyT")
    ∧ ("Raw" : String) ≠ "Rendered" := by
  refine ⟨by decide, by rfl, by decide⟩

/-- C9 (amended): every success log entry written by sendEmail records
the rendered subject of the outgoing message — the subject produced by
content generation, hence the template-substituted subject whenever a
template was applied; the entries written for a failed send attempt
instead record the request's raw literal subject. -/
theorem sendEmail_log_subjects (env : Env) (data : EmailData) (cfgId : Option String) :
    ∀ el ∈ logEntries (sendEmail env data cfgId).1,
      (el.success = true → ∃ sb,
          (generateEmailContent env data.templateId data.templateData
              data.subject data.body).2 = .ok sb ∧ el.subject = sb.1)
      ∧ (el.success = false → el.subject = data.subject) := by
  intro el hel
  obtain ⟨r, _, _, _, _, _, _, hsub⟩ := sendEmail_master env data cfgId
  exact ⟨(hsub el hel).2, (hsub el hel).1⟩

/-- C9 witness: the success entry of a concrete templated send carries
the rendered subject. -/
theorem sendEmail_log_subjects_witness :
    ((⟨"", "dynamic", some "t", "a@x.com", "Rendered", true,
        "Message sent: MID9"⟩ : EmailLogEntry).success = true → ∃ sb,
        (generateEmailContent envC9ok dataC9.templateId dataC9.templateData
            dataC9.subject dataC9.body).2 = .ok sb
        ∧ (⟨"", "dynamic", some "t", "a@x.com", "Rendered", true,
            "Message sent: MID9"⟩ : EmailLogEntry).subject = sb.1)
    ∧ ((⟨"", "dynamic", some "t", "a@x.com", "Rendered", true,
        "Message sent: MID9"⟩ : EmailLogEntry).success = false
        → (⟨"", "dynamic", some "t", "a@x.com", "Rendered", true,
            "Message sent: MID9"⟩ : EmailLogEntry).subject = dataC9.subject) :=
  sendEmail_log_subjects envC9ok dataC9 none
    ⟨"", "dynamic", some "t", "a@x.com", "Rendered", true, "Message sent: MID9"⟩
    (by decide)

/-- The default-flagged template of the concrete reserved-id
environment; its id is not the reserved word. -/
def tmplD : EmailTemplate :=
  { id := "t1", name := "D", subject := "DefaultSubject", body := "DefaultBody"
    isDefault := true }

/-- A concrete environment whose template store holds one template,
marked default, and whose transport succeeds. -/
def envC8 : Env :=
  { getSmtpConfigs := .ok []
    getDefaultSmtpConfig := .ok none
    getEmailTemplates := .ok [tmplD]
    getDefaultEmailTemplate := .ok (some tmplD)
    sendMail := fun _ _ => .ok "MID8"
    logPersist := fun _ => true }

/-- A single-recipient request naming the reserved template id. -/
def dataC8 : EmailData :=
  { toField := .single { email := "a@x.com", name := none }
    subject := "Raw"
    body := "B"
    fromField := none
    cc := none
    bcc := none
    templateId := some "default"
    templateData := none
    smtpConfig := some dynW }

/-- C8: counterexample to the claim as stated: the request names the
template id default and no template with that id exists in the store,
yet the send does not proceed with the request's literal subject — the
reserved id selects the store's default-flagged template, and the
written log entry carries that template's subject. -/
theorem sendEmail_missing_template_counterexample :
    (envC8.getEmailTemplates = .ok [tmplD] ∧ tmplD.id ≠ "default")
    ∧ (logEntries (sendEmail envC8 dataC8 none).1).map (fun el => el.subject)
        = ["DefaultSubject"]
    ∧ ("DefaultSubject" : String) ≠ "Raw" :=
  ⟨⟨rfl, by decide⟩, by decide, by decide⟩

/-- C8 (amended): when a request names a non-empty templateId other
than the reserved word default and no template with that id exists in
the reachable template store, sendEmail does not fail for that reason:
content generation logs a console warning and returns the request's
literal subject and body unchanged, and the send returns exactly the
result it would return for the identical request without a template
reference.  An empty templateId is treated as no template, and the
reserved id default instead selects the store's default-flagged
template. -/
theorem sendEmail_template_fallback (env : Env) (data : EmailData)
    (cfgId : Option String) (tid : String) (ts : List EmailTemplate)
    (h1 : data.templateId = some tid) (h2 : tid ≠ "default") (h3 : tid ≠ "")
    (h4 : env.getEmailTemplates = .ok ts)
    (h5 : ts.find? (fun t => t.id == tid) = none) :
    (generateEmailContent env data.templateId data.templateData
        data.subject data.body)
      = ([Event.warn ("Template with ID " ++ tid
            ++ " not found. Using provided subject and body.")],
         .ok (data.subject, data.body))
    ∧ (sendEmail env data cfgId).2
        = (sendEmail env { data with templateId := none } cfgId).2 := by
  have hgc : (generateEmailContent env data.templateId data.templateData
      data.subject data.body)
      = ([Event.warn ("Template with ID " ++ tid
            ++ " not found. Using provided subject and body.")],
         .ok (data.subject, data.body)) := by
    rw [h1]
    simp only [generateEmailContent]
    rw [if_neg h3, h4]
    simp only [M.attempt]
    rw [if_neg h2, h5]
    simp [M.attempt, M.bind, M.emit, M.pure]
  refine ⟨hgc, ?_⟩
  have hgc2 : generateEmailContent env
      ({ data with templateId := none } : EmailData).templateId
      ({ data with templateId := none } : EmailData).templateData
      ({ data with templateId := none } : EmailData).subject
      ({ data with templateId := none } : EmailData).body
      = ([], .ok (data.subject, data.body)) := rfl
  have hct2 : createTransport env cfgId
      ({ data with templateId := none } : EmailData).smtpConfig
      = createTransport env cfgId data.smtpConfig := rfl
  have hrs2 : resolveSendConfig env { data with templateId := none } cfgId
      = resolveSendConfig env data cfgId := rfl
  have hmo : buildMailOptions { data with templateId := none }
      = buildMailOptions data := rfl
  unfold sendEmail sendEmailBody
  rw [hct2, hrs2, hgc2, hgc, hmo]
  rcases hct : (createTransport env cfgId data.smtpConfig).2 with e | ts0
  · rw [M.bind_of_error _ hct]
    rw [M.bind_of_error _ hct]
    simp only [M.tryCatch]
    rw [M.bind_of_ok _ ((logFailureEntries_shape env data cfgId e
        data.toField.toList).1)]
    rw [M.bind_of_ok _ ((logFailureEntries_shape env
        { data with templateId := none } cfgId e data.toField.toList).1)]
  · rw [M.bind_of_ok _ hct]
    rw [M.bind_of_ok _ hct]
    rcases hrs : (resolveSendConfig env data cfgId).2 with e | ocfg
    · rw [M.bind_of_error _ hrs]
      rw [M.bind_of_error _ hrs]
      simp only [M.tryCatch]
      rw [M.bind_of_ok _ ((logFailureEntries_shape env data cfgId e
          data.toField.toList).1)]
      rw [M.bind_of_ok _ ((logFailureEntries_shape env
          { data with templateId := none } cfgId e data.toField.toList).1)]
    · rw [M.bind_of_ok _ hrs]
      rw [M.bind_of_ok _ hrs]
      cases ocfg with
      | none => simp [M.tryCatch, M.pure]
      | some cfg =>
          dsimp only
          rw [M.bind_mk]
          rw [M.bind_mk]
          dsimp only
          rcases hsm : env.sendMail ts0
              (buildMailOptions data data.subject data.body cfg.defaultFrom)
              with e | mid
          · rw [sendMailM_of_error env ts0 _ e hsm]
            rw [M.bind_of_error _ rfl]
            rw [M.bind_of_error _ rfl]
            simp only [M.tryCatch]
            rw [M.bind_of_ok _ ((logFailureEntries_shape env data cfgId e
                data.toField.toList).1)]
            rw [M.bind_of_ok _ ((logFailureEntries_shape env
                { data with templateId := none } cfgId e data.toField.toList).1)]
          · rw [sendMailM_of_ok env ts0 _ mid hsm]
            rw [M.bind_mk]
            rw [M.bind_mk]
            rw [M.bind_of_ok _ ((logSuccessEntries_shape env data cfg data.subject mid
                data.toField.toList).1)]
            rw [M.bind_of_ok _ ((logSuccessEntries_shape env
                { data with templateId := none } cfg data.subject mid
                data.toField.toList).1)]
            simp [M.tryCatch, M.pure]

/-- A single-recipient request naming a template id absent from the
concrete store. -/
def dataC8w : EmailData :=
  { dataC9 with templateId := some "missing" }

/-- C8 witness: at the concrete store holding only the template t, a
request naming the absent template id missing renders the literal
subject and body with a warning and returns exactly the result of the
template-free request. -/
theorem sendEmail_template_fallback_witness :
    (generateEmailContent envC9ok dataC8w.templateId dataC8w.templateData
        dataC8w.subject dataC8w.body)
      = ([Event.warn ("Template with ID " ++ "missing"
            ++ " not found. Using provided subject and body.")],
         .ok (dataC8w.subject, dataC8w.body))
    ∧ (sendEmail envC9ok dataC8w none).2
        = (sendEmail envC9ok { dataC8w with templateId := none } none).2 :=
  sendEmail_template_fallback envC9ok dataC8w none "missing" [tmplT]
    rfl (by decide) (by decide) rfl (by decide)

/-! The bulk orchestrator's accounting. -/

/-- Modelled from the spec: contiguous batches of the given size in
input order, the final batch holding the remainder (spec section 4.5).
For a positive batch size the head-plus-take shape of each step is
exactly the slice of the next batchSize elements of the remaining
list. -/
def chunksSpec (bs : Nat) : List α → List (List α)
  | [] => []
  | x :: xs => (x :: xs.take (bs - 1)) :: chunksSpec bs (xs.drop (bs - 1))
termination_by l => l.length
decreasing_by
  simp only [List.length_cons, List.length_drop]
  omega

/-- Modelled from the spec: one batch item per chunk, with a pause of
the configured delay after every chunk except the final one (spec
section 4.5). -/
def interleavePauses (ms : Nat) : List (List String) → List BatchItem
  | [] => []
  | [c] => [.batch c]
  | c :: c2 :: cs => .batch c :: .pause ms :: interleavePauses ms (c2 :: cs)

/-- One recipient of a batch bumps the tally by exactly one — sent or
failed — never raises, appends exactly one log entry carrying that
recipient's address, and emits no batch items. -/
theorem processRecipient_master (env : Env) (data : BulkEmailData)
    (cfgId : Option String) (acc : Nat × List BulkFailure) (r : EmailRecipient) :
    ∃ acc1, (processRecipient env data cfgId acc r).2 = .ok acc1
      ∧ acc1.1 + acc1.2.length = acc.1 + acc.2.length + 1
      ∧ (logEntries (processRecipient env data cfgId acc r).1).map
          (fun el => el.recipient) = [r.email]
      ∧ batchSkeleton (processRecipient env data cfgId acc r).1 = [] := by
  obtain ⟨res, h1, _, _, hlogs, hskel, _, _⟩ :=
    sendEmail_master env (bulkEmailDataFor data r) cfgId
  unfold processRecipient
  rw [M.bind_of_ok _ h1]
  cases hres : res.success with
  | true =>
      refine ⟨(acc.1 + 1, acc.2), ?_, by dsimp only; omega, ?_, ?_⟩
      · simp [M.tryCatch, M.pure]
      · simpa [M.tryCatch, M.pure, bulkEmailDataFor, RecipientField.toList]
          using hlogs
      · simpa [M.tryCatch, M.pure] using hskel
  | false =>
      refine ⟨(acc.1, acc.2 ++ [⟨r.email,
          match res.message with
          | some m => if m == "" then "Unknown error" else m
          | none => "Unknown error"⟩]), ?_, ?_, ?_, ?_⟩
      · simp [M.tryCatch, M.pure]
      · dsimp only
        simp only [List.length_append, List.length_singleton]
        omega
      · simpa [M.tryCatch, M.pure, bulkEmailDataFor, RecipientField.toList]
          using hlogs
      · simpa [M.tryCatch, M.pure] using hskel

/-- A whole batch bumps the tally by its size, never raises, appends
one log entry per batch recipient in order, and emits no batch
items. -/
theorem processBatch_master (env : Env) (data : BulkEmailData)
    (cfgId : Option String) :
    ∀ (batch : List EmailRecipient) (acc : Nat × List BulkFailure),
    ∃ acc1, (processBatch env data cfgId batch acc).2 = .ok acc1
      ∧ acc1.1 + acc1.2.length = acc.1 + acc.2.length + batch.length
      ∧ (logEntries (processBatch env data cfgId batch acc).1).map
          (fun el => el.recipient) = batch.map (fun x => x.email)
      ∧ batchSkeleton (processBatch env data cfgId batch acc).1 = [] := by
  intro batch
  induction batch with
  | nil =>
      intro acc
      exact ⟨acc, rfl, by simp, by simp [processBatch, M.pure, logEntries],
        by simp [processBatch, M.pure, batchSkeleton]⟩
  | cons r rest ih =>
      intro acc
      obtain ⟨acc1, h1, h2, h3, h4⟩ := processRecipient_master env data cfgId acc r
      obtain ⟨acc2, g1, g2, g3, g4⟩ := ih acc1
      unfold processBatch
      rw [M.bind_of_ok _ h1]
      refine ⟨acc2, g1, ?_, ?_, ?_⟩
      · simp only [List.length_cons]
        omega
      · simp [logEntries_append, h3, g3]
      · simp [batchSkeleton_append, h4, g4]

/-- The batching loop, with enough fuel and a positive batch size,
never raises, bumps the tally by the number of remaining recipients,
appends one log entry per recipient in input order, and produces
exactly the prescribed batch-and-pause skeleton: the chunks of the
remaining recipients with a pause after every chunk except the final
one. -/
theorem bulkLoop_master (env : Env) (data : BulkEmailData) (cfgId : Option String)
    (bs delayMs : Nat) (hbs : 0 < bs) :
    ∀ (fuel : Nat) (rem : List EmailRecipient) (acc : Nat × List BulkFailure),
      rem.length < fuel →
      ∃ acc2, (bulkLoop env data cfgId bs delayMs fuel rem acc).2 = .ok acc2
        ∧ acc2.1 + acc2.2.length = acc.1 + acc.2.length + rem.length
        ∧ (logEntries (bulkLoop env data cfgId bs delayMs fuel rem acc).1).map
            (fun el => el.recipient) = rem.map (fun x => x.email)
        ∧ batchSkeleton (bulkLoop env data cfgId bs delayMs fuel rem acc).1
            = interleavePauses delayMs (chunksSpec bs (rem.map (fun x => x.email))) := by
  intro fuel
  induction fuel with
  | zero =>
      intro rem acc h
      exact absurd h (Nat.not_lt_zero _)
  | succ fuel ih =>
      intro rem acc hlen
      cases rem with
      | nil =>
          refine ⟨acc, rfl, by simp, by simp [bulkLoop, M.pure, logEntries], ?_⟩
          simp [bulkLoop, M.pure, batchSkeleton, chunksSpec, interleavePauses]
      | cons r rest =>
          obtain ⟨acc1, h1, h2, h3, h4⟩ :=
            processBatch_master env data cfgId (r :: rest.take (bs - 1)) acc
          unfold bulkLoop
          simp only [M.emit]
          rw [M.bind_mk]
          rw [M.bind_of_ok _ h1]
          cases hdrop : rest.drop (bs - 1) with
          | nil =>
              have hle : rest.length ≤ bs - 1 := by
                have := congrArg List.length hdrop
                simp only [List.length_drop, List.length_nil] at this
                omega
              have htake : rest.take (bs - 1) = rest := List.take_of_length_le hle
              refine ⟨acc1, rfl, ?_, ?_, ?_⟩
              · rw [htake] at h2
                simp only [List.length_cons] at h2 ⊢
                omega
              · simp only [M.pure, List.append_eq, List.nil_append, List.append_nil,
                  List.singleton_append, logEntries_append, logEntries]
                rw [h3, htake]
              · simp only [M.pure, List.append_eq, List.nil_append, List.append_nil,
                  List.singleton_append, batchSkeleton_append, batchSkeleton]
                rw [h4]
                have hmdrop : (rest.map (fun x => x.email)).drop (bs - 1) = [] := by
                  rw [← List.map_drop, hdrop]
                  rfl
                simp [chunksSpec, interleavePauses, hmdrop, List.map_take]
          | cons r2 rest2 =>
              have hlen2 : (r2 :: rest2).length < fuel := by
                have := congrArg List.length hdrop
                simp only [List.length_drop, List.length_cons] at this ⊢
                simp only [List.length_cons] at hlen
                omega
              obtain ⟨acc2, g1, g2, g3, g4⟩ := ih (r2 :: rest2) acc1 hlen2
              simp only [M.emit]
              rw [M.bind_mk]
              refine ⟨acc2, ?_, ?_, ?_, ?_⟩
              · simpa using g1
              · have hdr := congrArg List.length hdrop
                simp only [List.length_drop, List.length_cons] at hdr
                have htk : (rest.take (bs - 1)).length = bs - 1 := by
                  simp only [List.length_take]
                  omega
                simp only [List.length_cons] at h2 g2 ⊢
                rw [htk] at h2
                omega
              · simp only [M.pure, List.append_eq, List.nil_append, List.append_nil,
                  List.singleton_append, List.append_assoc, logEntries_append,
                  logEntries, List.map_append]
                rw [h3, g3, ← hdrop]
                rw [← List.map_append]
                have hta := List.take_append_drop (bs - 1) rest
                rw [List.cons_append, hta]
              · simp only [M.pure, List.append_eq, List.nil_append, List.append_nil,
                  List.singleton_append, List.append_assoc, batchSkeleton_append,
                  batchSkeleton]
                rw [h4, g4]
                simp only [List.nil_append]
                have hchunk : chunksSpec bs ((r :: rest).map (fun x => x.email))
                    = ((r :: rest.take (bs - 1)).map (fun x => x.email))
                      :: chunksSpec bs ((r2 :: rest2).map (fun x => x.email)) := by
                  rw [List.map_cons, chunksSpec, ← List.map_take, ← List.map_drop,
                    hdrop]
                  simp
                rw [hchunk]
                have hne : ∃ c cs, chunksSpec bs ((r2 :: rest2).map (fun x => x.email))
                    = c :: cs := by
                  rw [List.map_cons, chunksSpec]
                  exact ⟨_, _, rfl⟩
                obtain ⟨c, cs, hcs⟩ := hne
                rw [hcs]
                rfl

/-- C1: for every BulkSendRequest with a positive batch size (the
source's loop does not terminate at batch size zero) and any
environment, sendBulkEmails returns a result whose totalSent plus
totalFailed equals the recipient count, and exactly one EmailLogEntry
write is performed per recipient over the whole bulk operation —
carrying that recipient's address, in input order — whether that
recipient's send succeeded or failed.  The logging append is
spec-modelled as best-effort and never raising. -/
theorem sendBulkEmails_counts (env : Env) (data : BulkEmailData)
    (cfgId : Option String) (hbs : 0 < data.batchSize.getD 10) :
    ∃ r, (sendBulkEmails env data cfgId).2 = .ok r
      ∧ r.totalSent + r.totalFailed = data.recipients.length
      ∧ (logEntries (sendBulkEmails env data cfgId).1).map (fun el => el.recipient)
          = data.recipients.map (fun x => x.email) := by
  unfold sendBulkEmails
  by_cases hemp : data.recipients.isEmpty
  · have hnil : data.recipients = [] := List.isEmpty_iff.mp hemp
    refine ⟨⟨false, 0, 0, [], some "No recipients provided"⟩, ?_, ?_, ?_⟩ <;>
      simp [hemp, hnil, M.tryCatch, M.pure, logEntries]
  · obtain ⟨acc2, h1, h2, h3, h4⟩ := bulkLoop_master env data cfgId
      (data.batchSize.getD 10) (data.delayBetweenBatches.getD 1000) hbs
      (data.recipients.length + 1) data.recipients (0, []) (Nat.lt_succ_self _)
    simp only [hemp, if_false, Bool.false_eq_true]
    rw [M.bind_of_ok _ h1]
    simp only [M.tryCatch, M.pure, List.append_nil]
    refine ⟨_, rfl, ?_, ?_⟩
    · dsimp only
      dsimp only at h2
      simp only [List.length_nil] at h2
      omega
    · exact h3

/-- C6: for every BulkSendRequest with a positive batch size and any
environment, the bulk result satisfies success equal to totalSent
greater than zero — at least one successful recipient makes the batch
an overall success even when others failed — and totalFailed equals
the length of the failures list, one entry having been appended per
failed recipient. -/
theorem sendBulkEmails_success_policy (env : Env) (data : BulkEmailData)
    (cfgId : Option String) (hbs : 0 < data.batchSize.getD 10) :
    ∃ r, (sendBulkEmails env data cfgId).2 = .ok r
      ∧ r.success = decide (0 < r.totalSent)
      ∧ r.totalFailed = r.failures.length
      ∧ r.totalSent + r.failures.length = data.recipients.length := by
  unfold sendBulkEmails
  by_cases hemp : data.recipients.isEmpty
  · have hnil : data.recipients = [] := List.isEmpty_iff.mp hemp
    refine ⟨⟨false, 0, 0, [], some "No recipients provided"⟩, ?_, ?_, ?_, ?_⟩ <;>
      simp [hemp, hnil, M.tryCatch, M.pure]
  · obtain ⟨acc2, h1, h2, h3, h4⟩ := bulkLoop_master env data cfgId
      (data.batchSize.getD 10) (data.delayBetweenBatches.getD 1000) hbs
      (data.recipients.length + 1) data.recipients (0, []) (Nat.lt_succ_self _)
    simp only [hemp, if_false, Bool.false_eq_true]
    rw [M.bind_of_ok _ h1]
    simp only [M.tryCatch, M.pure, List.append_nil]
    refine ⟨_, rfl, rfl, rfl, ?_⟩
    dsimp only
    dsimp only at h2
    simp only [List.length_nil] at h2
    omega

/-- C7: for every BulkSendRequest with a positive batch size and any
environment, the orchestration skeleton of the run is exactly the
contiguous chunks of the recipient list of batchSize (default ten)
in input order, the final chunk holding the remainder, with one pause
of delayBetweenBatches milliseconds (default one thousand) after every
chunk except the final one. -/
theorem sendBulkEmails_batching (env : Env) (data : BulkEmailData)
    (cfgId : Option String) (hbs : 0 < data.batchSize.getD 10) :
    batchSkeleton (sendBulkEmails env data cfgId).1
      = interleavePauses (data.delayBetweenBatches.getD 1000)
          (chunksSpec (data.batchSize.getD 10)
            (data.recipients.map (fun x => x.email))) := by
  unfold sendBulkEmails
  by_cases hemp : data.recipients.isEmpty
  · have hnil : data.recipients = [] := List.isEmpty_iff.mp hemp
    simp [hemp, hnil, M.tryCatch, M.pure, batchSkeleton, chunksSpec, interleavePauses]
  · obtain ⟨acc2, h1, h2, h3, h4⟩ := bulkLoop_master env data cfgId
      (data.batchSize.getD 10) (data.delayBetweenBatches.getD 1000) hbs
      (data.recipients.length + 1) data.recipients (0, []) (Nat.lt_succ_self _)
    simp only [hemp, if_false, Bool.false_eq_true]
    rw [M.bind_of_ok _ h1]
    simp only [M.tryCatch, M.pure, List.append_nil]
    exact h4

/-- A three-recipient bulk request with batch size two and an inline
transport configuration, used by concrete witnesses. -/
def bulkW : BulkEmailData :=
  { recipients := [⟨"r1@x.com", none⟩, ⟨"r2@x.com", some "R2"⟩, ⟨"r3@x.com", none⟩]
    subject := "S"
    body := "B"
    fromField := none
    cc := none
    bcc := none
    templateId := none
    templateData := none
    batchSize := some 2
    delayBetweenBatches := some 5
    smtpConfig := some dynW }

/-- C1 witness: the three-recipient bulk request at the concrete
environment satisfies the counting invariant. -/
theorem sendBulkEmails_counts_witness :
    0 < bulkW.batchSize.getD 10
    ∧ ∃ r, (sendBulkEmails envW bulkW none).2 = .ok r
      ∧ r.totalSent + r.totalFailed = bulkW.recipients.length
      ∧ (logEntries (sendBulkEmails envW bulkW none).1).map (fun el => el.recipient)
          = bulkW.recipients.map (fun x => x.email) :=
  ⟨by decide, sendBulkEmails_counts envW bulkW none (by decide)⟩

/-- C6 witness: the three-recipient bulk request at the concrete
environment satisfies the success policy. -/
theorem sendBulkEmails_success_policy_witness :
    0 < bulkW.batchSize.getD 10
    ∧ ∃ r, (sendBulkEmails envW bulkW none).2 = .ok r
      ∧ r.success = decide (0 < r.totalSent)
      ∧ r.totalFailed = r.failures.length
      ∧ r.totalSent + r.failures.length = bulkW.recipients.length :=
  ⟨by decide, sendBulkEmails_success_policy envW bulkW none (by decide)⟩

/-- Twenty-five recipients for the batching witness. -/
def recipients25 : List EmailRecipient :=
  (List.range 25).map (fun i => ⟨"r" ++ toString i, none⟩)

/-- The twenty-five-recipient bulk request relying on the default
batch size of ten and the default pause of one thousand
milliseconds. -/
def bulk25 : BulkEmailData :=
  { bulkW with
    recipients := recipients25
    batchSize := none
    delayBetweenBatches := none }

/-- C7 witness: twenty-five recipients at the default batch size of
ten produce exactly the chunks of ten with the default pause of one
thousand milliseconds after every chunk except the final one. -/
theorem sendBulkEmails_batching_witness :
    0 < bulk25.batchSize.getD 10
    ∧ batchSkeleton (sendBulkEmails envW bulk25 none).1
        = interleavePauses (bulk25.delayBetweenBatches.getD 1000)
            (chunksSpec (bulk25.batchSize.getD 10)
              (bulk25.recipients.map (fun x => x.email))) :=
  ⟨by decide, sendBulkEmails_batching envW bulk25 none (by decide)⟩

end SmtpServer
